import Mathlib

/-!
Shallow embedding of the stateful plugin pipeline engine of the `gita`
repository (`cpp_plugins/src`):

* `data_types.cpp`            — `PluginResultImpl` (typed result record);
* `decision_plugin_base.cpp`  — the classification state machine of
  `UniversalClassifyPluginBase::classifyStatus` together with the
  `Motor97Plugin` transition handlers;
* `event_plugin_base.cpp`     — the score-alarm debounce state of
  `ScoreAlarmPluginBase`;
* `evaluation_plugin_base.cpp`— `CompRealtimeHealth34Plugin::calculateOverallHealth`;
* `plugin_manager.cpp`        — `PluginManager` / `PluginChainManager`
  (`createChain`, `initializeChainPlugins`, `executeChain`,
  `executePluginInChain`).

C++ `std::map` values are modelled by association lists with
insert-or-assign semantics; `double` values by `ℚ` (only order comparisons
occur in the embedded code); C++ `system_clock` time points by integer
seconds, with the current time passed explicitly to the functions that call
`system_clock::now()` internally.  Machine `int` counters are modelled by
`ℤ` (no overflow is exercised by any statement below).
-/

namespace AlgorithmPlugins

/-- Lookup in an association list: the value at the first matching key,
mirroring `std::map::find`. -/
def mapLookup {κ α : Type} [DecidableEq κ] : List (κ × α) → κ → Option α
  | [], _ => none
  | (k0, v0) :: rest, k => if k0 = k then some v0 else mapLookup rest k

/-- Insert-or-assign on an association list, mirroring `std::map::operator[]=`:
replaces the first binding of the key, or appends a new binding. -/
def mapInsert {κ α : Type} [DecidableEq κ] : List (κ × α) → κ → α → List (κ × α)
  | [], k, v => [(k, v)]
  | (k0, v0) :: rest, k, v =>
      if k0 = k then (k, v) :: rest else (k0, v0) :: mapInsert rest k v

theorem mapLookup_mapInsert_self {κ α : Type} [DecidableEq κ]
    (m : List (κ × α)) (k : κ) (v : α) :
    mapLookup (mapInsert m k v) k = some v := by
  induction m with
  | nil => simp [mapInsert, mapLookup]
  | cons hd tl ih =>
      obtain ⟨k0, v0⟩ := hd
      by_cases h : k0 = k
      · simp [mapInsert, mapLookup, h]
      · simp [mapInsert, mapLookup, h, ih]

theorem mapLookup_mapInsert_ne {κ α : Type} [DecidableEq κ]
    (m : List (κ × α)) (k k' : κ) (v : α) (h : k' ≠ k) :
    mapLookup (mapInsert m k v) k' = mapLookup m k' := by
  have hk : ¬(k = k') := fun hh => h hh.symm
  induction m with
  | nil => simp [mapInsert, mapLookup, hk]
  | cons hd tl ih =>
      obtain ⟨k0, v0⟩ := hd
      by_cases h0 : k0 = k
      · subst h0
        simp [mapInsert, mapLookup, hk]
      · by_cases h1 : k0 = k'
        · simp [mapInsert, mapLookup, h0, h1, h]
        · simp [mapInsert, mapLookup, h0, h1, ih]

/-! ## `PluginResultImpl` (`data_types.cpp`, lines 352–386)

Three typed slot maps; `setData` is overloaded on the value type in C++,
modelled here by a tagged `ResultValue` dispatched to the matching map. -/

/-- A value passed to one of the three `PluginResultImpl::setData` overloads. -/
inductive ResultValue : Type
  | str (s : String)
  | dbl (x : ℚ)
  | int (n : ℤ)
deriving DecidableEq

/-- `PluginResultImpl`: the mutable result record with typed slots. -/
structure PluginResultImpl : Type where
  string_data : List (String × String)
  double_data : List (String × ℚ)
  int_data : List (String × ℤ)
deriving DecidableEq

/-- The freshly constructed record (`make_shared<PluginResultImpl>()`). -/
def emptyResult : PluginResultImpl := ⟨[], [], []⟩

/-- `PluginResultImpl::setData` (the three overloads, `data_types.cpp:355-365`). -/
def PluginResultImpl.setData (r : PluginResultImpl) (key : String) :
    ResultValue → PluginResultImpl
  | .str v => { r with string_data := mapInsert r.string_data key v }
  | .dbl v => { r with double_data := mapInsert r.double_data key v }
  | .int v => { r with int_data := mapInsert r.int_data key v }

/-- `PluginResultImpl::getStringData` (missing key yields `""`). -/
def PluginResultImpl.getStringData (r : PluginResultImpl) (key : String) : String :=
  (mapLookup r.string_data key).getD ""

/-- `PluginResultImpl::getDoubleData` (missing key yields `0.0`). -/
def PluginResultImpl.getDoubleData (r : PluginResultImpl) (key : String) : ℚ :=
  (mapLookup r.double_data key).getD 0

/-- `PluginResultImpl::getIntData` (missing key yields `0`). -/
def PluginResultImpl.getIntData (r : PluginResultImpl) (key : String) : ℤ :=
  (mapLookup r.int_data key).getD 0

/-- `PluginResultImpl::hasData` (`data_types.cpp:382-386`). -/
def PluginResultImpl.hasData (r : PluginResultImpl) (key : String) : Bool :=
  (mapLookup r.string_data key).isSome || (mapLookup r.double_data key).isSome ||
    (mapLookup r.int_data key).isSome

/-- The typed read matching the type of a written value: reading back a
`ResultValue` uses the getter of the same slot type, exactly as a C++ caller
retrieves a value written through the corresponding `setData` overload. -/
def PluginResultImpl.readsBack (r : PluginResultImpl) (key : String) :
    ResultValue → Prop
  | .str v => r.getStringData key = v
  | .dbl v => r.getDoubleData key = v
  | .int v => r.getIntData key = v

/-! ## Classification state machine (`decision_plugin_base.cpp`)

`UniversalClassifyPluginBase::classifyStatus` (lines 86–143) with the base
class helpers `offlineCheck`, `resetState`, `calculateFeatureStatus`,
`calculateOverallStatus` (lines 145–195), `DecisionPluginBase::addStatusToHistory`
(lines 56–61), and the virtual transition handlers of `Motor97Plugin`
(lines 282–316).  The write-only `time_point_[2]` array of the C++ state
(set in `resetState`, never read) is omitted.  The `confidence` output value
is pure arithmetic on the same inputs and does not feed back into the state;
the embedding returns the emitted status code. -/

/-- The classification parameters of a `UniversalClassifyPluginBase` instance
(fields of the base class plus the select-features/thresholds/status-mapping
supplied by the concrete plugin). -/
structure ClassifyConfig : Type where
  select_features : List String
  thresholds : List (List ℚ)
  status_mapping : List (ℤ × String)
  veto_index : ℤ := -1
  run_feature_num : ℤ := 1
  transition_status : ℤ := 2
  time_series_status : ℤ := 5
  /-- `transition_width_` (start-up width, shut-down width), default `{60, 10}`. -/
  transition_width : ℤ × ℤ := (60, 10)
  /-- `time_series_width_`, default `{0, 0}` (disabled). -/
  time_series_width : ℤ × ℤ := (0, 0)
  offline_length : ℤ := 3600
  max_history_size : Nat := 10

/-- The mutable per-instance state of the classification machine. -/
structure ClassifyState : Type where
  /-- `prev_time_`; `none` models the default-constructed sentinel. -/
  prev_time : Option ℤ := none
  transition_counter : ℤ := 0
  close_counter : ℤ := 0
  time_series_counter : ℤ := 0
  prev_status : ℤ := -1
  status_history : List ℤ := []
deriving DecidableEq

/-- Error taxonomy of a `classifyStatus` call: a missing required feature, or
an emitted status code absent from the status mapping (the C++ `map::at`
throws and the catch block turns it into a failed call). -/
inductive ClassifyError : Type
  | missingFeature (name : String)
  | unknownStatus (code : ℤ)
deriving DecidableEq

/-- `UniversalClassifyPluginBase::resetState` (`decision_plugin_base.cpp:155-162`). -/
def resetState (st : ClassifyState) : ClassifyState :=
  { st with transition_counter := 0, close_counter := 0, time_series_counter := 0,
            prev_status := -1 }

/-- `UniversalClassifyPluginBase::offlineCheck` (`decision_plugin_base.cpp:145-153`):
reset the counters when the gap since the previous reading exceeds
`offline_length_`, then record the current time. -/
def offlineCheckState (offline_length : ℤ) (st : ClassifyState) (now : ℤ) :
    ClassifyState :=
  let st' :=
    match st.prev_time with
    | some t => if offline_length < now - t then resetState st else st
    | none => st
  { st' with prev_time := some now }

/-- `UniversalClassifyPluginBase::calculateFeatureStatus`
(`decision_plugin_base.cpp:164-171`): the index of the first threshold the
value does not exceed, or the list length if it exceeds all of them. -/
def calculateFeatureStatus (v : ℚ) : List ℚ → ℤ
  | [] => 0
  | t :: ts => if v ≤ t then 0 else calculateFeatureStatus v ts + 1

/-- `UniversalClassifyPluginBase::calculateOverallStatus`
(`decision_plugin_base.cpp:173-195`): veto rule, then quorum rule. -/
def calculateOverallStatus (veto_index run_feature_num : ℤ) (fs : List ℤ) : ℤ :=
  if fs.isEmpty then 0
  else if 0 ≤ veto_index ∧ veto_index < (fs.length : ℤ) ∧
      fs.getD veto_index.toNat 0 = 0 then 0
  else if run_feature_num ≤ ((fs.filter (fun s => 0 < s)).length : ℤ) then 1
  else 0

/-- `DecisionPluginBase::addStatusToHistory` (`decision_plugin_base.cpp:56-61`):
push to the back of the deque, dropping the front if the size bound is hit. -/
def addStatusToHistory (max_size : Nat) (hist : List ℤ) (s : ℤ) : List ℤ :=
  let h := hist ++ [s]
  if max_size < h.length then h.drop 1 else h

/-- `Motor97Plugin::handleTransition` (`decision_plugin_base.cpp:282-300`):
returns (emit-transition-code?, transition_counter', close_counter'). -/
def handleTransition (tw : ℤ × ℤ) (tc cc current previous : ℤ) : Bool × ℤ × ℤ :=
  if current = 1 ∧ previous = 0 then
    if tw.1 ≤ tc + 1 then (true, 0, cc) else (false, tc + 1, cc)
  else if current = 0 ∧ previous = 1 then
    if tw.2 ≤ cc + 1 then (false, 0, 0) else (false, tc, cc + 1)
  else (false, tc, cc)

/-- `Motor97Plugin::handleTimeSeriesTransition` (`decision_plugin_base.cpp:302-316`):
returns (emit-time-series-code?, time_series_counter'). -/
def handleTimeSeriesTransition (tsw : ℤ × ℤ) (tsc current previous : ℤ) :
    Bool × ℤ :=
  if 0 < tsw.1 then
    if current ≠ previous then
      if tsw.1 ≤ tsc + 1 then (true, 0) else (false, tsc + 1)
    else (false, 0)
  else (false, tsc)

/-- The per-feature status loop of `classifyStatus`
(`decision_plugin_base.cpp:101-112`): walk `select_features` in order,
peeling the matching threshold list (`getThresholds()[feature_statuses.size()]`);
the first missing feature aborts the call. -/
def featureStatusList (features : List (String × ℚ)) :
    List String → List (List ℚ) → Except ClassifyError (List ℤ)
  | [], _ => .ok []
  | f :: fs, ths =>
      match mapLookup features f with
      | none => .error (.missingFeature f)
      | some v =>
          (featureStatusList features fs (ths.drop 1)).map
            (fun rest => calculateFeatureStatus v (ths.headD []) :: rest)

/-- `UniversalClassifyPluginBase::classifyStatus`
(`decision_plugin_base.cpp:86-143`) with the `Motor97Plugin` transition
handlers: offline check, per-feature statuses, overall status, transition
smoothing, history/prev update, then the status-mapping lookup for the
emitted code (whose failure is caught after the state was already updated). -/
def classifyStatus (cfg : ClassifyConfig) (st : ClassifyState)
    (features : List (String × ℚ)) (now : ℤ) :
    Except ClassifyError ℤ × ClassifyState :=
  let st1 := offlineCheckState cfg.offline_length st now
  match featureStatusList features cfg.select_features cfg.thresholds with
  | .error e => (.error e, st1)
  | .ok statuses =>
      let overall := calculateOverallStatus cfg.veto_index cfg.run_feature_num statuses
      let next :=
        if st1.prev_status ≠ -1 ∧ overall ≠ st1.prev_status then
          let r1 := handleTransition cfg.transition_width st1.transition_counter
            st1.close_counter overall st1.prev_status
          let o1 := if r1.1 then cfg.transition_status else overall
          let r2 := handleTimeSeriesTransition cfg.time_series_width
            st1.time_series_counter o1 st1.prev_status
          let o2 := if r2.1 then cfg.time_series_status else o1
          (o2, r1.2.1, r1.2.2, r2.2)
        else (overall, st1.transition_counter, st1.close_counter, st1.time_series_counter)
      let st2 := { st1 with
        transition_counter := next.2.1, close_counter := next.2.2.1,
        time_series_counter := next.2.2.2,
        status_history := addStatusToHistory cfg.max_history_size st1.status_history next.1,
        prev_status := next.1 }
      match mapLookup cfg.status_mapping next.1 with
      | none => (.error (.unknownStatus next.1), st2)
      | some _ => (.ok next.1, st2)

/-! ## Score-alarm debounce state (`event_plugin_base.cpp`)

`ScoreAlarmPluginBase::shouldTriggerAlarm` (lines 128–151) and
`updateAlarmState` (lines 153–165).  The C++ functions read
`system_clock::now()`; the embedding passes the current time (integer
seconds) explicitly.  Note that the `score` argument of both functions is
never consulted by either body. -/

/-- The per-key alarm state of a `ScoreAlarmPluginBase` instance. -/
structure ScoreAlarmState : Type where
  last_alarm_time : List (String × ℤ) := []
  alarm_count : List (String × ℤ) := []
  tolerable_count : List (String × ℤ) := []
deriving DecidableEq

/-- `ScoreAlarmPluginBase::shouldTriggerAlarm` (`event_plugin_base.cpp:128-151`):
false inside the `alarm_interval_` cooldown after the last recorded firing,
false while the lifetime alarm count is below the key's `tolerable_count_`
entry (both defaulting to 0 for absent keys), true otherwise. -/
def shouldTriggerAlarm (alarm_interval : ℤ) (st : ScoreAlarmState)
    (health_name : String) (now : ℤ) (score : ℚ) : Bool :=
  let cooldown :=
    match mapLookup st.last_alarm_time health_name with
    | some t => decide (now - t < alarm_interval)
    | none => false
  if cooldown then false
  else
    let current_count := (mapLookup st.alarm_count health_name).getD 0
    let tolerable_count := (mapLookup st.tolerable_count health_name).getD 0
    if current_count < tolerable_count then false else true

/-- `ScoreAlarmPluginBase::updateAlarmState` (`event_plugin_base.cpp:153-165`):
record the firing time, bump the lifetime count, zero the tolerable count. -/
def updateAlarmState (st : ScoreAlarmState) (health_name : String) (now : ℤ)
    (score : ℚ) : ScoreAlarmState :=
  { last_alarm_time := mapInsert st.last_alarm_time health_name now,
    alarm_count := mapInsert st.alarm_count health_name
      ((mapLookup st.alarm_count health_name).getD 0 + 1),
    tolerable_count := mapInsert st.tolerable_count health_name 0 }

/-! ## Health composition (`evaluation_plugin_base.cpp`)

`CompRealtimeHealth34Plugin::calculateOverallHealth` (lines 324–353). -/

/-- One declared health output (`RealtimeHealthPluginBase::HealthConfig`). -/
structure HealthConfig : Type where
  name : String
  formula : String
  weights : List ℚ
  dependencies : List String

/-- The weighted-average accumulation loop of `calculateOverallHealth`
(lines 333–339): over pairs of dependency name and weight (the loop is
bounded by the shorter of the two lists), add `score·weight` and `weight`
for each dependency that resolves in `feature_scores`. -/
def weightedSums (deps : List String) (weights : List ℚ)
    (feature_scores : List (String × ℚ)) : ℚ × ℚ :=
  (deps.zip weights).foldl
    (fun acc dw =>
      match mapLookup feature_scores dw.1 with
      | some s => (acc.1 + s * dw.2, acc.2 + dw.2)
      | none => acc)
    (0, 0)

/-- `CompRealtimeHealth34Plugin::calculateOverallHealth`
(`evaluation_plugin_base.cpp:324-353`): weighted average per config, with the
neutral default score 100 when the resolved weight sum is not positive or
the formula is not `weighted_average`. -/
def calculateOverallHealth (configs : List HealthConfig)
    (feature_scores : List (String × ℚ)) : List (String × ℚ) :=
  configs.foldl
    (fun hs config =>
      if config.formula = "weighted_average" then
        let s := weightedSums config.dependencies config.weights feature_scores
        if 0 < s.2 then mapInsert hs config.name (s.1 / s.2)
        else mapInsert hs config.name 100
      else mapInsert hs config.name 100)
    []

/-! ## Plugin manager and chain manager (`plugin_manager.cpp`)

The registry holds factories; a factory's `createPlugin` always returns an
instance (the concrete factories `make_shared` one), and
`PluginManager::createPlugin(name, params)` (lines 48–57) then runs
`initialize` when parameters are supplied, returning null on a failed
initialization.  A plugin instance is modelled by its observable behaviour:
its `process` function (for chain execution) and its initialization
predicate. -/

/-- An already-parsed parameter set handed to `initialize` (the engine treats
it opaquely; only the initialization outcome depends on its contents). -/
def PluginParameter : Type := List (String × String)

/-- The payload of one chain-execution input (`PluginData`); `executeChain`
passes it through unchanged, so its structure is irrelevant here. -/
def PluginData : Type := List (String × ℚ)

/-- A plugin instance: whether `initialize` succeeds on a given parameter
set, and what `process` does to the shared result record. -/
structure Plugin : Type where
  initOk : PluginParameter → Bool
  process : PluginData → PluginResultImpl → Bool × PluginResultImpl

/-- A registered factory (`IPluginFactory`): `createPlugin` yields an
instance. -/
structure PluginFactory : Type where
  create : Plugin

/-- `PluginManager` state: the `plugin_factories_` map. -/
structure PluginManagerState : Type where
  plugin_factories : List (String × PluginFactory)

/-- `PluginManager::isPluginAvailable` (`plugin_manager.cpp:84-87`). -/
def isPluginAvailable (mgr : PluginManagerState) (plugin_name : String) : Bool :=
  (mapLookup mgr.plugin_factories plugin_name).isSome

/-- `PluginManager::createPlugin(name, params)` (`plugin_manager.cpp:48-57`):
create via the factory, then initialize when parameters were supplied;
a failed initialization yields null. -/
def createPluginWithParams (mgr : PluginManagerState) (plugin_name : String)
    (params : Option PluginParameter) : Option Plugin :=
  match mapLookup mgr.plugin_factories plugin_name with
  | none => none
  | some factory =>
      match params with
      | none => some factory.create
      | some p => if factory.create.initOk p then some factory.create else none

/-- `ChainConfig` (`plugin_manager.h`): ordered plugin names, their parameter
sets, and the advisory data mappings. -/
structure ChainConfig : Type where
  chain_name : String
  plugin_names : List String
  plugin_params : List (Option PluginParameter)
  data_mappings : List (String × String) := []

/-- `PluginChainManager` state: `plugin_chains_` and `plugin_instances_`. -/
structure ChainManagerState : Type where
  plugin_chains : List (String × ChainConfig) := []
  plugin_instances : List (String × List (String × Plugin)) := []

/-- The per-stage parameter selection of `initializeChainPlugins` and
`executeChain`: `i < plugin_params.size() ? plugin_params[i] : nullptr`. -/
def pairParams : List String → List (Option PluginParameter) →
    List (String × Option PluginParameter)
  | [], _ => []
  | n :: ns, [] => (n, none) :: pairParams ns []
  | n :: ns, p :: ps => (n, p) :: pairParams ns ps

/-- The creation loop of `PluginChainManager::initializeChainPlugins`
(`plugin_manager.cpp:419-430`): create each stage's instance in order,
aborting at the first failure and keeping the instances created so far. -/
def initChainLoop (mgr : PluginManagerState) (chain_name : String) :
    List (String × Option PluginParameter) → ChainManagerState →
    Bool × ChainManagerState
  | [], st => (true, st)
  | (n, p) :: rest, st =>
      match createPluginWithParams mgr n p with
      | none => (false, st)
      | some plugin =>
          let inner := (mapLookup st.plugin_instances chain_name).getD []
          let updated := mapInsert st.plugin_instances chain_name (mapInsert inner n plugin)
          initChainLoop mgr chain_name rest { st with plugin_instances := updated }

/-- `PluginChainManager::initializeChainPlugins` (`plugin_manager.cpp:409-433`). -/
def initializeChainPlugins (mgr : PluginManagerState) (st : ChainManagerState)
    (chain_name : String) : Bool × ChainManagerState :=
  match mapLookup st.plugin_chains chain_name with
  | none => (false, st)
  | some config =>
      initChainLoop mgr chain_name
        (pairParams config.plugin_names config.plugin_params) st

/-- `PluginChainManager::createChain` (`plugin_manager.cpp:241-261`): reject
empty names, check registry availability of every stage, then register the
chain config and eagerly create/initialize the stage instances. -/
def createChain (mgr : PluginManagerState) (st : ChainManagerState)
    (config : ChainConfig) : Bool × ChainManagerState :=
  if config.chain_name = "" ∨ config.plugin_names = [] then (false, st)
  else if config.plugin_names.all (fun n => isPluginAvailable mgr n) then
    let registered := mapInsert st.plugin_chains config.chain_name config
    initializeChainPlugins mgr { st with plugin_chains := registered } config.chain_name
  else (false, st)

/-- `PluginChainManager::isChainAvailable` (`plugin_manager.cpp:387-390`). -/
def isChainAvailable (st : ChainManagerState) (chain_name : String) : Bool :=
  (mapLookup st.plugin_chains chain_name).isSome

/-- `PluginChainManager::executePluginInChain` (`plugin_manager.cpp:435-451`):
look up the chain's instance of the named plugin and run its `process` on
the shared record; a missing instance fails the stage. -/
def executePluginInChain (st : ChainManagerState) (chain_name plugin_name : String)
    (input : PluginData) (res : PluginResultImpl) : Bool × PluginResultImpl :=
  match mapLookup st.plugin_instances chain_name with
  | none => (false, res)
  | some inner =>
      match mapLookup inner plugin_name with
      | none => (false, res)
      | some plugin => plugin.process input res

/-- `PluginChainManager::convertDataForPlugin` (`plugin_manager.cpp:453-458`):
the identity on the input data. -/
def convertDataForPlugin (input : PluginData) : PluginData := input

/-- The stage loop of `executeChain` (`plugin_manager.cpp:343-357`),
instrumented with the list of stages actually invoked: run the stages in
declared order over the shared record, stopping at the first failure. -/
def runStages (st : ChainManagerState) (chain_name : String) (input : PluginData) :
    List String → PluginResultImpl → List String →
    Option PluginResultImpl × List String
  | [], res, invoked => (some res, invoked)
  | n :: rest, res, invoked =>
      let r := executePluginInChain st chain_name n input res
      if r.1 then
        runStages st chain_name (convertDataForPlugin input) rest r.2 (invoked ++ [n])
      else (none, invoked ++ [n])

/-- `PluginChainManager::executeChain` (`plugin_manager.cpp:328-363`): run the
chain's stages in declared order over one fresh shared record; the caller's
output record is overwritten with the final record only when every stage
succeeded (`none` models the untouched output of a failed call).  The second
component is the instrumentation: the stages invoked, in order. -/
def executeChain (st : ChainManagerState) (chain_name : String)
    (input : PluginData) : Option PluginResultImpl × List String :=
  match mapLookup st.plugin_chains chain_name with
  | none => (none, [])
  | some config => runStages st chain_name input config.plugin_names emptyResult []

/-- One step of the chain-prefix semantics: feed the record through a stage,
propagating failure (used to phrase hypotheses about `executeChain`). -/
def stepStage (st : ChainManagerState) (chain_name : String) (input : PluginData)
    (acc : Option PluginResultImpl) (plugin_name : String) : Option PluginResultImpl :=
  match acc with
  | none => none
  | some r =>
      let e := executePluginInChain st chain_name plugin_name input r
      if e.1 then some e.2 else none

/-- Run a list of stages from a given record, failure-propagating. -/
def runFrom (st : ChainManagerState) (chain_name : String) (input : PluginData)
    (names : List String) (r : PluginResultImpl) : Option PluginResultImpl :=
  names.foldl (stepStage st chain_name input) (some r)

/-! ## Threshold bucketing (claim C3) -/

theorem calculateFeatureStatus_eq_of (v : ℚ) :
    ∀ (T : List ℚ) (i : Nat), i < T.length →
      (∀ j, j < i → T.getD j 0 < v) → v ≤ T.getD i 0 →
      calculateFeatureStatus v T = i := by
  intro T
  induction T with
  | nil => intro i hi _ _; simp at hi
  | cons t ts ih =>
      intro i hi hlow hub
      cases i with
      | zero =>
          have hv : v ≤ t := by simpa using hub
          simp [calculateFeatureStatus, hv]
      | succ n =>
          have ht : t < v := by simpa using hlow 0 (Nat.succ_pos n)
          have hnle : ¬ v ≤ t := not_le.mpr ht
          have hrec := ih n (Nat.lt_of_succ_lt_succ (by simpa using hi))
            (fun j hj => by simpa using hlow (j + 1) (Nat.succ_lt_succ hj))
            (by simpa using hub)
          simp only [calculateFeatureStatus, hnle, if_false, hrec]
          push_cast
          ring

theorem calculateFeatureStatus_eq_length (v : ℚ) :
    ∀ T : List ℚ, (∀ x ∈ T, x < v) → calculateFeatureStatus v T = T.length := by
  intro T
  induction T with
  | nil => intro _; simp [calculateFeatureStatus]
  | cons t ts ih =>
      intro h
      have hnle : ¬ v ≤ t := not_le.mpr (h t (by simp))
      have hrec := ih (fun x hx => h x (List.mem_cons_of_mem _ hx))
      simp only [calculateFeatureStatus, hnle, if_false, hrec, List.length_cons]
      push_cast
      ring

/-- C3: for an ascending threshold list `T`, a value `v` with
`T[i-1] < v ≤ T[i]` gets feature status `i`, and a value above the last
threshold gets status `len(T)`
(`UniversalClassifyPluginBase::calculateFeatureStatus`). -/
theorem calculateFeatureStatus_threshold_buckets (T : List ℚ) (v : ℚ)
    (hsorted : T.Pairwise (· ≤ ·)) :
    (∀ i : Nat, 0 < i → i < T.length → T.getD (i - 1) 0 < v → v ≤ T.getD i 0 →
        calculateFeatureStatus v T = i)
    ∧ (T ≠ [] → T.getD (T.length - 1) 0 < v →
        calculateFeatureStatus v T = T.length) := by
  constructor
  · intro i hpos hi hlow hub
    refine calculateFeatureStatus_eq_of v T i hi ?_ hub
    intro j hj
    have hi1 : i - 1 < T.length := lt_of_le_of_lt (Nat.sub_le i 1) hi
    have hj' : j < T.length := lt_trans hj hi
    rcases Nat.lt_or_ge j (i - 1) with hlt | hge
    · have hle := List.pairwise_iff_getElem.mp hsorted j (i - 1) hj' hi1 hlt
      rw [List.getD_eq_getElem T 0 hj']
      rw [List.getD_eq_getElem T 0 hi1] at hlow
      exact lt_of_le_of_lt hle hlow
    · have hje : j = i - 1 := by omega
      rw [hje]
      exact hlow
  · intro hne hlast
    refine calculateFeatureStatus_eq_length v T ?_
    intro x hx
    obtain ⟨j, hj, rfl⟩ := List.mem_iff_getElem.mp hx
    have hlen : T.length - 1 < T.length :=
      Nat.sub_lt (List.length_pos.mpr hne) one_pos
    rw [List.getD_eq_getElem T 0 hlen] at hlast
    rcases Nat.lt_or_ge j (T.length - 1) with hlt | hge
    · exact lt_of_le_of_lt
        (List.pairwise_iff_getElem.mp hsorted j (T.length - 1) hj hlen hlt) hlast
    · have hje : j = T.length - 1 := by omega
      subst hje
      exact hlast

/-- Witness for C3 at the spec's example: thresholds `[0,100,200]`,
`v = 150` is in bucket 2, and `v = 250` exceeds every threshold. -/
theorem calculateFeatureStatus_threshold_buckets_witness :
    calculateFeatureStatus 150 [0, 100, 200] = 2
    ∧ calculateFeatureStatus 250 [0, 100, 200] = 3 :=
  ⟨(calculateFeatureStatus_threshold_buckets [0, 100, 200] 150 (by decide)).1 2
      (by decide) (by decide) (by decide) (by decide),
    (calculateFeatureStatus_threshold_buckets [0, 100, 200] 250 (by decide)).2
      (by decide) (by decide)⟩

/-! ## Veto dominance (claim C4) -/

/-- C4: for a non-empty sub-status vector, an in-range `veto_index` whose
sub-status is 0 forces the overall status to 0, whatever the other
sub-statuses and `run_feature_num`
(`UniversalClassifyPluginBase::calculateOverallStatus`). -/
theorem calculateOverallStatus_veto_dominates (veto_index run_feature_num : ℤ)
    (fs : List ℤ) (hne : fs ≠ []) (h0 : 0 ≤ veto_index)
    (hlt : veto_index < (fs.length : ℤ)) (hv : fs.getD veto_index.toNat 0 = 0) :
    calculateOverallStatus veto_index run_feature_num fs = 0 := by
  have h1 : fs.isEmpty = false := by simpa [List.isEmpty_iff] using hne
  unfold calculateOverallStatus
  rw [if_neg (by simp [h1]), if_pos ⟨h0, hlt, hv⟩]

/-- Witness for C4: sub-statuses `[3, 0, 7]` with `veto_index = 1` and
`run_feature_num = 0` still yield overall status 0. -/
theorem calculateOverallStatus_veto_dominates_witness :
    calculateOverallStatus 1 0 [3, 0, 7] = 0 :=
  calculateOverallStatus_veto_dominates 1 0 [3, 0, 7] (by decide) (by decide)
    (by decide) (by decide)

/-! ## Health composition fail-open (claim C9) -/

/-- C9: a health config whose resolved dependency weights sum to 0, or whose
formula is not `weighted_average`, yields the neutral default score 100
(`CompRealtimeHealth34Plugin::calculateOverallHealth`). -/
theorem calculateOverallHealth_neutral_default (config : HealthConfig)
    (feature_scores : List (String × ℚ))
    (h : config.formula ≠ "weighted_average" ∨
      (weightedSums config.dependencies config.weights feature_scores).2 = 0) :
    mapLookup (calculateOverallHealth [config] feature_scores) config.name =
      some 100 := by
  unfold calculateOverallHealth
  by_cases hf : config.formula = "weighted_average"
  · rcases h with h | h
    · exact absurd hf h
    · simp [hf, h, mapLookup_mapInsert_self]
  · simp [hf, mapLookup_mapInsert_self]

/-- Witness for C9: a weighted-average config whose only dependency carries
weight 0 resolves to the neutral score 100. -/
theorem calculateOverallHealth_neutral_default_witness :
    mapLookup
      (calculateOverallHealth
        [⟨"overall_health", "weighted_average", [0], ["vibration_health"]⟩]
        [("vibration_health", 50)])
      "overall_health" = some 100 :=
  calculateOverallHealth_neutral_default
    ⟨"overall_health", "weighted_average", [0], ["vibration_health"]⟩
    [("vibration_health", 50)] (Or.inr (by norm_num [weightedSums, mapLookup]))

/-! ## Result record last-write-wins (claim C10) -/

/-- C10: two successive writes of the same key leave the second value (read
through the slot the second write targeted), and a write to one key leaves
every slot of every other key unchanged (`PluginResultImpl::setData`). -/
theorem setData_last_write_wins (r : PluginResultImpl) (k k' : String)
    (v1 v2 v : ResultValue) (hk : k' ≠ k) :
    ((r.setData k v1).setData k v2).readsBack k v2
    ∧ (r.setData k v).getStringData k' = r.getStringData k'
    ∧ (r.setData k v).getDoubleData k' = r.getDoubleData k'
    ∧ (r.setData k v).getIntData k' = r.getIntData k' := by
  refine ⟨?_, ?_, ?_, ?_⟩
  · cases v2 <;> cases v1 <;>
      simp [PluginResultImpl.setData, PluginResultImpl.readsBack,
        PluginResultImpl.getStringData, PluginResultImpl.getDoubleData,
        PluginResultImpl.getIntData, mapLookup_mapInsert_self]
  · cases v <;>
      simp [PluginResultImpl.setData, PluginResultImpl.getStringData,
        mapLookup_mapInsert_ne _ _ _ _ hk]
  · cases v <;>
      simp [PluginResultImpl.setData, PluginResultImpl.getDoubleData,
        mapLookup_mapInsert_ne _ _ _ _ hk]
  · cases v <;>
      simp [PluginResultImpl.setData, PluginResultImpl.getIntData,
        mapLookup_mapInsert_ne _ _ _ _ hk]

/-- Witness for C10: overwriting key `"x"` keeps only the second value, and
an unrelated key `"y"` is untouched. -/
theorem setData_last_write_wins_witness :
    (((emptyResult.setData "x" (.int 1)).setData "x" (.int 2)).getIntData "x" = 2)
    ∧ ((emptyResult.setData "x" (.str "a")).getIntData "y" =
        emptyResult.getIntData "y") :=
  ⟨(setData_last_write_wins emptyResult "x" "y" (.int 1) (.int 2) (.str "a")
      (by decide)).1,
    (setData_last_write_wins emptyResult "x" "y" (.int 1) (.int 2) (.str "a")
      (by decide)).2.2.2⟩

/-! ## Alarm cooldown (claim C6) -/

/-- C6: inside any window shorter than `alarm_interval` seconds after a
recorded firing for a key, `shouldTriggerAlarm` is false for that key,
whatever the score (`ScoreAlarmPluginBase::shouldTriggerAlarm` after
`updateAlarmState`). -/
theorem shouldTriggerAlarm_cooldown (alarm_interval : ℤ) (st : ScoreAlarmState)
    (health_name : String) (fire_time now : ℤ) (fire_score score : ℚ)
    (h : now - fire_time < alarm_interval) :
    shouldTriggerAlarm alarm_interval
      (updateAlarmState st health_name fire_time fire_score)
      health_name now score = false := by
  unfold shouldTriggerAlarm updateAlarmState
  rw [mapLookup_mapInsert_self]
  simp [h]

/-- Witness for C6 at the spec's example: `alarm_interval = 180`, firing at
`t = 0`, a breach at `t = 100` does not fire. -/
theorem shouldTriggerAlarm_cooldown_witness :
    shouldTriggerAlarm 180 (updateAlarmState ⟨[], [], []⟩ "overall_health" 0 10)
      "overall_health" 100 10 = false :=
  shouldTriggerAlarm_cooldown 180 ⟨[], [], []⟩ "overall_health" 0 100 10 10
    (by decide)

/-! ## Tolerance counter (claim C7)

Claim C7 states that `shouldFire` returns true only once an independent
tolerance counter has reached `tolerable_length`, so that fewer than
`tolerable_length` consecutive breaches for a fresh key never fire.  In the
source, `tolerable_length_` (default 5 in `ScoreAlarm5Plugin::validateParameters`)
is never read by `shouldTriggerAlarm`, `tolerable_count_` is never
incremented anywhere, and both counters default to 0 for an absent key, so a
fresh key fires on its very first breach. -/

/-- Counterexample to C7: with the `ScoreAlarm5Plugin` defaults
(`tolerable_length = 5`, `alarm_interval = 180`) and a fresh key, the very
first breach — far fewer than 5 consecutive breaches — already fires. -/
theorem shouldTriggerAlarm_fresh_key_fires_immediately :
    shouldTriggerAlarm 180 ⟨[], [], []⟩ "overall_health" 1000 30 = true := by
  decide

/-- C7 amended: `shouldTriggerAlarm` never consults `tolerable_length`; for a
key with no recorded firing it returns true whenever the key's lifetime alarm
count is at least its `tolerable_count_` entry — both default to 0 for a
fresh key, and `updateAlarmState` resets `tolerable_count_` to 0 — so in
particular a fresh key fires on its first breach. -/
theorem shouldTriggerAlarm_ignores_tolerable_length (alarm_interval : ℤ)
    (st : ScoreAlarmState) (health_name : String) (now : ℤ) (score : ℚ)
    (hlast : mapLookup st.last_alarm_time health_name = none)
    (hcnt : (mapLookup st.tolerable_count health_name).getD 0 ≤
      (mapLookup st.alarm_count health_name).getD 0) :
    shouldTriggerAlarm alarm_interval st health_name now score = true := by
  unfold shouldTriggerAlarm
  rw [hlast]
  simp [not_lt.mpr hcnt]

/-- Witness for the amended C7: a fresh key passes both checks and fires. -/
theorem shouldTriggerAlarm_ignores_tolerable_length_witness :
    shouldTriggerAlarm 180 ⟨[], [], []⟩ "health" 0 99 = true :=
  shouldTriggerAlarm_ignores_tolerable_length 180 ⟨[], [], []⟩ "health" 0 99
    (by decide) (by decide)

/-! ## Missing required feature (claim C5)

Claim C5 states that a `classifyStatus` call failing on a missing required
feature mutates no persistent state, `prev_reading_time` included.  In the
source, `offlineCheck(now)` runs before the feature loop: it always
overwrites `prev_time_`, and resets the counters and `prev_status_` when the
offline window was exceeded.  The failed call therefore leaves exactly the
offline-checked state. -/

/-- Counterexample to C5: an instance whose previous reading was at `t = 0`
is called at `t = 10` with an empty feature map; the call fails with the
missing-feature error, yet `prev_time_` has changed from 0 to 10. -/
theorem classifyStatus_missing_feature_mutates_time :
    (classifyStatus ⟨["f"], [[10]], [(0, "stop")], -1, 1, 2, 5, (3, 3), (0, 0),
        3600, 10⟩
      ⟨some 0, 0, 0, 0, -1, []⟩ [] 10).1 = .error (.missingFeature "f")
    ∧ (classifyStatus ⟨["f"], [[10]], [(0, "stop")], -1, 1, 2, 5, (3, 3), (0, 0),
        3600, 10⟩
      ⟨some 0, 0, 0, 0, -1, []⟩ [] 10).2.prev_time = some 10 := ⟨rfl, rfl⟩

/-- C5 amended: a `classifyStatus` call that fails on a missing required
feature returns the missing-feature error and leaves exactly the
offline-checked state: `prev_time_` is set to the current time (and, when the
offline window was exceeded, the counters and `prev_status_` are reset);
history, `prev_status_` and the counters are otherwise untouched. -/
theorem classifyStatus_missing_feature_state (cfg : ClassifyConfig)
    (st : ClassifyState) (features : List (String × ℚ)) (now : ℤ) (f : String)
    (h : featureStatusList features cfg.select_features cfg.thresholds =
      .error (.missingFeature f)) :
    classifyStatus cfg st features now =
      (.error (.missingFeature f), offlineCheckState cfg.offline_length st now) := by
  unfold classifyStatus
  rw [h]

/-- Witness for the amended C5: the concrete failing call of the
counterexample ends in exactly the offline-checked state. -/
theorem classifyStatus_missing_feature_state_witness :
    classifyStatus ⟨["f"], [[10]], [(0, "stop")], -1, 1, 2, 5, (3, 3), (0, 0),
        3600, 10⟩
      ⟨some 0, 0, 0, 0, -1, []⟩ [] 10 =
      (.error (.missingFeature "f"),
        offlineCheckState 3600 ⟨some 0, 0, 0, 0, -1, []⟩ 10) :=
  classifyStatus_missing_feature_state _ ⟨some 0, 0, 0, 0, -1, []⟩ [] 10 "f" rfl

/-! ## Transition smoothing (claim C2)

Claim C2 states that a status change is never emitted before
`transition_width` consecutive invocations have reported the new raw status.
In the source the convention is the opposite: while the start-up counter is
below `transition_width[0]`, `handleTransition` returns false and
`classifyStatus` emits the new raw status directly; the intermediate
`transition_status` code is emitted exactly on the invocation where the
counter reaches the width. -/

/-- A concrete Motor97-style configuration exercising claim C2: one feature
`"f"` with threshold list `[10]`, `transition_width = (3, 3)`, time-series
smoothing disabled. -/
def c2Cfg : ClassifyConfig :=
  ⟨["f"], [[10]], [(0, "stop"), (1, "run"), (2, "transition"), (3, "abnormal")],
    -1, 1, 2, 5, (3, 3), (0, 0), 3600, 10⟩

/-- Counterexample to C2: with `transition_width = 3`, a first call reading
`f = 5` emits status 0; the very next call reading `f = 20` (one single
invocation reporting the new raw status 1) already emits status 1. -/
theorem classifyStatus_changes_before_transition_width :
    ((classifyStatus c2Cfg ⟨none, 0, 0, 0, -1, []⟩ [("f", 5)] 0).1 = .ok 0)
    ∧ ((classifyStatus c2Cfg
        (classifyStatus c2Cfg ⟨none, 0, 0, 0, -1, []⟩ [("f", 5)] 0).2
        [("f", 20)] 1).1 = .ok 1) := ⟨rfl, rfl⟩

/-- C2 amended: when the previous emitted status is 0 and the raw overall
status of the current invocation is 1, `classifyStatus` emits the new raw
status 1 immediately whenever the start-up transition counter stays below
`transition_width[0]`, and emits the intermediate `transition_status` code
exactly on the invocation where the counter reaches that width (time-series
smoothing disabled). -/
theorem classifyStatus_transition_emission (cfg : ClassifyConfig)
    (st : ClassifyState) (features : List (String × ℚ)) (now : ℤ)
    (statuses : List ℤ) (nm tn : String)
    (hfs : featureStatusList features cfg.select_features cfg.thresholds =
      .ok statuses)
    (hov : calculateOverallStatus cfg.veto_index cfg.run_feature_num statuses = 1)
    (hprev : (offlineCheckState cfg.offline_length st now).prev_status = 0)
    (htsw : cfg.time_series_width.1 ≤ 0) :
    ((offlineCheckState cfg.offline_length st now).transition_counter + 1 <
        cfg.transition_width.1 →
      mapLookup cfg.status_mapping 1 = some nm →
      (classifyStatus cfg st features now).1 = .ok 1)
    ∧ (cfg.transition_width.1 ≤
        (offlineCheckState cfg.offline_length st now).transition_counter + 1 →
      mapLookup cfg.status_mapping cfg.transition_status = some tn →
      (classifyStatus cfg st features now).1 = .ok cfg.transition_status) := by
  constructor
  · intro h1 h2
    simp [classifyStatus, hfs, hov, hprev, handleTransition,
      handleTimeSeriesTransition, h2, not_le.mpr h1, not_lt.mpr htsw]
  · intro h1 h2
    simp [classifyStatus, hfs, hov, hprev, handleTransition,
      handleTimeSeriesTransition, h2, h1, not_lt.mpr htsw]

/-- Witness for the amended C2: previous status 0, counter 0, width 3 — the
new raw status 1 is emitted on its first appearance. -/
theorem classifyStatus_transition_emission_witness :
    (classifyStatus c2Cfg ⟨none, 0, 0, 0, 0, []⟩ [("f", 20)] 7).1 = .ok 1 :=
  (classifyStatus_transition_emission c2Cfg ⟨none, 0, 0, 0, 0, []⟩ [("f", 20)] 7
      [1] "run" "transition" rfl rfl rfl (by decide)).1 (by decide) rfl

/-! ## Chain creation (claim C1)

Claim C1 states that `createChain` fails atomically, leaving neither a chain
config entry nor partial plugin instances when a stage is unavailable or its
initialization fails.  In the source the unavailability check does reject
with no mutation, but `plugin_chains_[config.chain_name] = config` runs
*before* `initializeChainPlugins`, so a failed initialization leaves the
config entry and the instances created so far registered. -/

theorem initChainLoop_plugin_chains (mgr : PluginManagerState)
    (chain_name : String) :
    ∀ (pairs : List (String × Option PluginParameter)) (st : ChainManagerState),
      ((initChainLoop mgr chain_name pairs st).2).plugin_chains =
        st.plugin_chains := by
  intro pairs
  induction pairs with
  | nil => intro st; rfl
  | cons hd tl ih =>
      intro st
      obtain ⟨n, p⟩ := hd
      unfold initChainLoop
      cases hcp : createPluginWithParams mgr n p with
      | none => rfl
      | some plugin => simp [ih]

/-- C1 amended: `createChain` fails with no mutation when a referenced plugin
is unavailable in the registry, but when every plugin is available it
registers the chain config entry *before* initializing the stage instances,
so the entry remains registered even if `createChain` then returns false
because a stage's creation/initialization failed. -/
theorem createChain_checks_and_registers (mgr : PluginManagerState)
    (st : ChainManagerState) (config : ChainConfig) :
    ((∃ n ∈ config.plugin_names, isPluginAvailable mgr n = false) →
      createChain mgr st config = (false, st))
    ∧ (config.chain_name ≠ "" → config.plugin_names ≠ [] →
      (∀ n ∈ config.plugin_names, isPluginAvailable mgr n = true) →
      mapLookup (createChain mgr st config).2.plugin_chains config.chain_name =
        some config) := by
  constructor
  · rintro ⟨n, hn, hfalse⟩
    unfold createChain
    by_cases h0 : config.chain_name = "" ∨ config.plugin_names = []
    · rw [if_pos h0]
    · rw [if_neg h0]
      cases hall : config.plugin_names.all (fun m => isPluginAvailable mgr m) with
      | true => exact absurd (List.all_eq_true.mp hall n hn) (by simp [hfalse])
      | false => simp
  · intro hname hnonempty hall
    unfold createChain
    rw [if_neg (by simp [hname, hnonempty]),
      if_pos (List.all_eq_true.mpr fun n hn => hall n hn)]
    simp [initializeChainPlugins, mapLookup_mapInsert_self,
      initChainLoop_plugin_chains]

/-- A registry for claim C1: plugin `"A"` initializes successfully, plugin
`"B"` fails every initialization. -/
def c1Mgr : PluginManagerState :=
  ⟨[("A", ⟨⟨fun _ => true, fun _ r => (true, r)⟩⟩),
    ("B", ⟨⟨fun _ => false, fun _ r => (true, r)⟩⟩)]⟩

/-- A chain definition over the two registered plugins, with parameters, so
stage `"B"` fails initialization. -/
def c1CfgGood : ChainConfig := ⟨"c", ["A", "B"], [some [], some []], []⟩

/-- A chain definition referencing an unregistered plugin. -/
def c1CfgMissing : ChainConfig := ⟨"d", ["Z"], [none], []⟩

/-- Counterexample to C1: stage `"B"` fails initialization, `createChain`
returns false, yet the chain stays registered (`isChainAvailable` is true)
and the instance created for stage `"A"` remains in the instance map. -/
theorem createChain_leaves_partial_chain :
    (createChain c1Mgr ⟨[], []⟩ c1CfgGood).1 = false
    ∧ isChainAvailable (createChain c1Mgr ⟨[], []⟩ c1CfgGood).2 "c" = true
    ∧ (mapLookup
        ((mapLookup (createChain c1Mgr ⟨[], []⟩ c1CfgGood).2.plugin_instances
          "c").getD []) "A").isSome = true := ⟨rfl, rfl, rfl⟩

/-- Witness for the amended C1: the unavailable-plugin chain is rejected with
no mutation, and the failing-initialization chain stays registered. -/
theorem createChain_checks_and_registers_witness :
    createChain c1Mgr ⟨[], []⟩ c1CfgMissing = (false, ⟨[], []⟩)
    ∧ mapLookup (createChain c1Mgr ⟨[], []⟩ c1CfgGood).2.plugin_chains "c" =
        some c1CfgGood :=
  ⟨(createChain_checks_and_registers c1Mgr ⟨[], []⟩ c1CfgMissing).1
      ⟨"Z", by simp [c1CfgMissing], rfl⟩,
    (createChain_checks_and_registers c1Mgr ⟨[], []⟩ c1CfgGood).2
      (by simp [c1CfgGood]) (by simp [c1CfgGood])
      (by intro n hn; fin_cases hn <;> rfl)⟩

/-! ## Chain execution (claim C8) -/

theorem foldl_stepStage_none (st : ChainManagerState) (chain_name : String)
    (input : PluginData) :
    ∀ names : List String,
      List.foldl (stepStage st chain_name input) none names = none := by
  intro names
  induction names with
  | nil => rfl
  | cons n rest ih => simpa [stepStage] using ih

theorem runStages_of_runFrom_success (st : ChainManagerState)
    (chain_name : String) (input : PluginData) :
    ∀ (names : List String) (r0 final : PluginResultImpl) (invoked : List String),
      runFrom st chain_name input names r0 = some final →
      runStages st chain_name input names r0 invoked =
        (some final, invoked ++ names) := by
  intro names
  induction names with
  | nil =>
      intro r0 final invoked h
      simp only [runFrom, List.foldl_nil, Option.some.injEq] at h
      simp [runStages, h]
  | cons n rest ih =>
      intro r0 final invoked h
      simp only [runFrom, List.foldl_cons] at h
      cases he : (executePluginInChain st chain_name n input r0).1 with
      | false =>
          rw [show stepStage st chain_name input (some r0) n = none by
            simp [stepStage, he]] at h
          rw [foldl_stepStage_none] at h
          exact absurd h (by simp)
      | true =>
          rw [show stepStage st chain_name input (some r0) n =
              some (executePluginInChain st chain_name n input r0).2 by
            simp [stepStage, he]] at h
          have hrec := ih (executePluginInChain st chain_name n input r0).2 final
            (invoked ++ [n]) h
          simp [runStages, he, convertDataForPlugin, hrec]

theorem runStages_of_runFrom_failure (st : ChainManagerState)
    (chain_name : String) (input : PluginData) :
    ∀ (pre : List String) (r0 r : PluginResultImpl) (invoked : List String)
      (name : String) (rest : List String),
      runFrom st chain_name input pre r0 = some r →
      (executePluginInChain st chain_name name input r).1 = false →
      runStages st chain_name input (pre ++ name :: rest) r0 invoked =
        (none, invoked ++ pre ++ [name]) := by
  intro pre
  induction pre with
  | nil =>
      intro r0 r invoked name rest hrun hfail
      simp only [runFrom, List.foldl_nil, Option.some.injEq] at hrun
      subst hrun
      simp [runStages, hfail]
  | cons p ps ih =>
      intro r0 r invoked name rest hrun hfail
      simp only [runFrom, List.foldl_cons] at hrun
      cases he : (executePluginInChain st chain_name p input r0).1 with
      | false =>
          rw [show stepStage st chain_name input (some r0) p = none by
            simp [stepStage, he]] at hrun
          rw [foldl_stepStage_none] at hrun
          exact absurd hrun (by simp)
      | true =>
          rw [show stepStage st chain_name input (some r0) p =
              some (executePluginInChain st chain_name p input r0).2 by
            simp [stepStage, he]] at hrun
          have hrec := ih (executePluginInChain st chain_name p input r0).2 r
            (invoked ++ [p]) name rest hrun hfail
          simp only [List.cons_append]
          simp [runStages, he, convertDataForPlugin, hrec]

/-- C8: `executeChain` runs a chain's stages strictly in declared order over
one shared record built from the empty record; if the stages before some
stage succeed and that stage fails, the chain aborts there — the failing
stage is the last one invoked, later stages are never invoked, and no record
is handed to the caller — while an all-success run invokes every stage in
order and returns the final accumulated record. -/
theorem executeChain_aborts_on_first_failure (st : ChainManagerState)
    (chain_name : String) (config : ChainConfig) (input : PluginData)
    (hc : mapLookup st.plugin_chains chain_name = some config) :
    (∀ (pre : List String) (name : String) (rest : List String)
        (r : PluginResultImpl),
      config.plugin_names = pre ++ name :: rest →
      runFrom st chain_name input pre emptyResult = some r →
      (executePluginInChain st chain_name name input r).1 = false →
      executeChain st chain_name input = (none, pre ++ [name]))
    ∧ (∀ final : PluginResultImpl,
      runFrom st chain_name input config.plugin_names emptyResult = some final →
      executeChain st chain_name input = (some final, config.plugin_names)) := by
  constructor
  · intro pre name rest r hnames hrun hfail
    unfold executeChain
    rw [hc]
    dsimp only
    rw [hnames]
    simpa using
      runStages_of_runFrom_failure st chain_name input pre emptyResult r []
        name rest hrun hfail
  · intro final hrun
    unfold executeChain
    rw [hc]
    dsimp only
    simpa using
      runStages_of_runFrom_success st chain_name input config.plugin_names
        emptyResult final [] hrun

/-- A chain-manager state for claim C8: chain `"c"` has stages `A`, `B`, `C`;
`A` writes a key and succeeds, `B` always fails, `C` would succeed. -/
def c8State : ChainManagerState :=
  ⟨[("c", ⟨"c", ["A", "B", "C"], [], []⟩)],
    [("c",
      [("A", ⟨fun _ => true, fun _ r => (true, r.setData "a" (.int 1))⟩),
        ("B", ⟨fun _ => true, fun _ r => (false, r)⟩),
        ("C", ⟨fun _ => true, fun _ r => (true, r)⟩)])]⟩

/-- Witness for C8: stage `B` of chain `[A, B, C]` fails, so `executeChain`
returns no record, having invoked exactly `A` then `B` and never `C`. -/
theorem executeChain_aborts_on_first_failure_witness :
    executeChain c8State "c" [] = (none, ["A", "B"]) :=
  (executeChain_aborts_on_first_failure c8State "c" ⟨"c", ["A", "B", "C"], [], []⟩
      [] rfl).1 ["A"] "B" ["C"] (emptyResult.setData "a" (.int 1)) rfl rfl rfl

end AlgorithmPlugins
